import Mathlib

/-
  Verification development for the configuration-assembly core of an
  observability pipeline (src/src/config/builder.rs).

  The definitions below are a shallow embedding of `ConfigBuilder` and its
  operations `append`, `merge_pipelines`, and the `From<Config>` conversion.
  Types that `builder.rs` imports from sibling modules that are not part of
  the given sources (ComponentId, Pipelines, GlobalOptions, LogSchema,
  api::Options, HealthcheckOptions, TestDefinition, Config, the entity
  wrappers, and the indexmap container) are modelled from the specification;
  each such definition carries a doc comment saying so.

  Polymorphic plugin configurations (trait objects in the source) are
  represented by a type parameter `V`: the core never inspects them, it only
  stores and moves them.
-/

set_option autoImplicit false

namespace VectorConfig



variable {V : Type}

/-- Modelled from the spec: identity of a pipeline entity, either global
(a plain name) or scoped (a name qualified by an owning pipeline); equality
is over the full qualified value.  Mirrors the `ComponentId` struct with an
`id` and an optional owning `pipeline`. -/
structure ComponentId where
  id : String
  pipeline : Option String
deriving DecidableEq, Repr

/-- A global (unscoped) component id. -/
def ComponentId.global (s : String) : ComponentId := ⟨s, none⟩

/-- `ComponentId::is_global`: true when not scoped inside a pipeline. -/
def ComponentId.is_global (c : ComponentId) : Bool := c.pipeline.isNone

/-- Modelled from the spec: the rendering used in diagnostic messages.
Global ids print as the bare name; scoped ids qualify it with the pipeline. -/
def ComponentId.display (c : ComponentId) : String :=
  match c.pipeline with
  | none => c.id
  | some p => p ++ "#" ++ c.id

/-- Modelled from the spec: insertion-ordered mapping (the `indexmap`
container used for the four entity collections).  Entries are kept in
insertion order; `insert` on an existing key replaces the value in place,
keeping its position. -/
structure IndexMap (α : Type) (β : Type) where
  entries : List (α × β)
deriving DecidableEq, Repr

/-- Membership test on keys (`IndexMap::contains_key`). -/
def IndexMap.contains {α β : Type} [DecidableEq α] (m : IndexMap α β) (k : α) : Bool :=
  m.entries.any (fun p => p.1 = k)

/-- Lookup (`IndexMap::get`). -/
def IndexMap.get? {α β : Type} [DecidableEq α] (m : IndexMap α β) (k : α) : Option β :=
  (m.entries.find? (fun p => decide (p.1 = k))).map (fun p => p.2)

/-- `IndexMap::insert`: replace in place when the key exists, else push back. -/
def IndexMap.insert {α β : Type} [DecidableEq α] (m : IndexMap α β) (k : α) (v : β) :
    IndexMap α β :=
  if m.contains k then
    ⟨m.entries.map (fun p => if p.1 = k then (p.1, v) else p)⟩
  else
    ⟨m.entries ++ [(k, v)]⟩

/-- In-place update of the value stored at `k` (the effect of `get_mut`
followed by a mutation); a no-op when the key is absent. -/
def IndexMap.modify {α β : Type} [DecidableEq α] (m : IndexMap α β) (k : α) (f : β → β) :
    IndexMap α β :=
  ⟨m.entries.map (fun p => if p.1 = k then (p.1, f p.2) else p)⟩

/-- The keys in insertion order (`IndexMap::keys`). -/
def IndexMap.keys {α β : Type} (m : IndexMap α β) : List α :=
  m.entries.map (fun p => p.1)

/-- Number of entries (`IndexMap::len`). -/
def IndexMap.len {α β : Type} (m : IndexMap α β) : Nat :=
  m.entries.length

/-- `Extend::extend`: fold `insert` over the other map's entries. -/
def IndexMap.extend {α β : Type} [DecidableEq α] (m other : IndexMap α β) : IndexMap α β :=
  other.entries.foldl (fun acc p => acc.insert p.1 p.2) m

/-- Modelled from the spec: the log-field schema, merged field by field;
a field still holding its built-in default adopts the other side's value,
and two incompatible explicitly-set values contribute one error each. -/
structure LogSchema where
  message_key : String
  host_key : String
deriving DecidableEq, Repr

/-- The built-in default log schema. -/
def LogSchema.default : LogSchema := ⟨"message", "host"⟩

/-- Modelled from the spec: merge of one log-schema field with default
value `d`; returns the merged value and the errors it contributes. -/
def mergeSchemaField (s o d fname : String) : String × List String :=
  if s = d then (o, [])
  else if o ≠ d ∧ s ≠ o then
    (s, ["conflicting values for 'log_schema." ++ fname ++ "' found"])
  else (s, [])

/-- Modelled from the spec: field-by-field log-schema merge; incompatible
fields each contribute one error while the remaining fields still merge. -/
def LogSchema.merge (s o : LogSchema) : LogSchema × List String :=
  let mk := mergeSchemaField s.message_key o.message_key "message" "message_key"
  let hk := mergeSchemaField s.host_key o.host_key "host" "host_key"
  (⟨mk.1, hk.1⟩, mk.2 ++ hk.2)

/-- Modelled from the spec: API-surface options with a delegated merge whose
failure is one collected error. -/
structure ApiOptions where
  enabled : Bool
  address : Option String
deriving DecidableEq, Repr

/-- Modelled from the spec: delegated API-options merge; two different
explicitly-set addresses are a conflict, `enabled` is or-combined. -/
def ApiOptions.merge (s o : ApiOptions) : Except String ApiOptions :=
  match s.address, o.address with
  | some a, some b =>
      if a = b then Except.ok ⟨s.enabled || o.enabled, some a⟩
      else Except.error ("conflicting values for 'api.address' found: "
        ++ a ++ ", " ++ b)
  | some a, none => Except.ok ⟨s.enabled || o.enabled, some a⟩
  | none, b => Except.ok ⟨s.enabled || o.enabled, b⟩

/-- Modelled from the spec: healthcheck options merged with an
explicitly-set-option-wins policy. -/
structure HealthcheckOptions where
  enabled : Option Bool
  require_healthy : Option Bool
deriving DecidableEq, Repr

/-- Modelled from the spec: a fragment that explicitly sets an option
overrides the accumulator's value. -/
def HealthcheckOptions.merge (s o : HealthcheckOptions) : HealthcheckOptions :=
  ⟨match o.enabled with
    | some b => some b
    | none => s.enabled,
   match o.require_healthy with
    | some b => some b
    | none => s.require_healthy⟩

/-- Modelled from the spec: `vector_core::default_data_dir()`, the built-in
default data directory, a distinguished set value. -/
def default_data_dir : Option String := some "/var/lib/vector/"

/-- Modelled from the spec: process-wide global options (data directory and
log-field schema). -/
structure GlobalOptions where
  data_dir : Option String
  log_schema : LogSchema
deriving DecidableEq, Repr

/-- Modelled from the spec: enrichment-table wrapper (no input edges). -/
structure EnrichmentTableOuter (V : Type) where
  inner : V
deriving DecidableEq, Repr

/-- Modelled from the spec: source wrapper (no input edges). -/
structure SourceOuter (V : Type) where
  inner : V
deriving DecidableEq, Repr

/-- Modelled from the spec: sink wrapper carrying its upstream input edges. -/
structure SinkOuter (V : Type) where
  inputs : List ComponentId
  inner : V
deriving DecidableEq, Repr

/-- Transform wrapper carrying its upstream input edges (fields `inner` and
`inputs` as constructed in `add_transform` in builder.rs). -/
structure TransformOuter (V : Type) where
  inputs : List ComponentId
  inner : V
deriving DecidableEq, Repr

/-- Modelled from the spec: a test definition, named uniquely by `name`
across the whole builder; its remaining content is opaque to this core. -/
structure TestDefinition (V : Type) where
  name : String
  body : V
deriving DecidableEq, Repr

/-- Modelled from the spec: one locally-named pipeline transform - its
wrapped transform config (with declared inputs) plus the ordered list of
output targets it should be wired into. -/
structure PipelineTransform (V : Type) where
  inner : TransformOuter V
  outputs : List ComponentId
deriving DecidableEq, Repr

/-- Modelled from the spec: a named pipeline macro - an insertion-ordered
mapping from local transform name to pipeline transform. -/
structure Pipeline (V : Type) where
  transforms : List (String × PipelineTransform V)
deriving DecidableEq, Repr

/-- Modelled from the spec: the pending pipeline macros, an
insertion-ordered mapping from pipeline name to pipeline. -/
structure Pipelines (V : Type) where
  entries : List (String × Pipeline V)
deriving DecidableEq, Repr

/-- Modelled from the spec: `Pipelines::into_scoped` - flatten every
pipeline, in declaration order, into (scoped ComponentId, pipeline
transform) pairs. -/
def Pipelines.into_scoped (ps : Pipelines V) : List (ComponentId × PipelineTransform V) :=
  ps.entries.flatMap (fun pr =>
    pr.2.transforms.map (fun tr => (ComponentId.mk tr.1 (some pr.1), tr.2)))

/-- The aggregate intermediate representation (struct `ConfigBuilder` in
builder.rs). -/
structure ConfigBuilder (V : Type) where
  global : GlobalOptions
  api : ApiOptions
  healthchecks : HealthcheckOptions
  enrichment_tables : IndexMap ComponentId (EnrichmentTableOuter V)
  sources : IndexMap ComponentId (SourceOuter V)
  sinks : IndexMap ComponentId (SinkOuter V)
  transforms : IndexMap ComponentId (TransformOuter V)
  tests : List (TestDefinition V)
  provider : Option V
  pipelines : Pipelines V
deriving DecidableEq, Repr

/-- The default-constructed builder (`ConfigBuilder::default()`): every
collection empty, no provider, no pending pipelines, default options. -/
def defaultBuilder : ConfigBuilder V where
  global := ⟨none, LogSchema.default⟩
  api := ⟨false, none⟩
  healthchecks := ⟨none, none⟩
  enrichment_tables := ⟨[]⟩
  sources := ⟨[]⟩
  sinks := ⟨[]⟩
  transforms := ⟨[]⟩
  tests := []
  provider := none
  pipelines := ⟨[]⟩

/-- Modelled from the spec: the compiled runtime configuration (`Config`),
as consumed by the `From<Config> for ConfigBuilder` conversion in
builder.rs - it carries the entity collections, tests and options but no
provider and no pending pipelines. -/
structure Config (V : Type) where
  global : GlobalOptions
  api : ApiOptions
  healthchecks : HealthcheckOptions
  enrichment_tables : IndexMap ComponentId (EnrichmentTableOuter V)
  sources : IndexMap ComponentId (SourceOuter V)
  sinks : IndexMap ComponentId (SinkOuter V)
  transforms : IndexMap ComponentId (TransformOuter V)
  tests : List (TestDefinition V)
deriving DecidableEq, Repr

/-- `impl From<Config> for ConfigBuilder` (builder.rs lines 52-68). -/
def ConfigBuilder.from_config (c : Config V) : ConfigBuilder V where
  global := c.global
  api := c.api
  healthchecks := c.healthchecks
  enrichment_tables := c.enrichment_tables
  sources := c.sources
  sinks := c.sinks
  transforms := c.transforms
  provider := none
  tests := c.tests
  pipelines := ⟨[]⟩

/-- The data-directory reconciliation inside `append`
(builder.rs lines 197-205): returns the merged value and the errors it
contributes. -/
def mergeDataDir (s w : Option String) : Option String × List String :=
  if s = none ∨ s = default_data_dir then (w, [])
  else if w ≠ default_data_dir ∧ s ≠ w then
    (s, ["conflicting values for 'data_dir' found"])
  else (s, [])

/-- The API-options step inside `append` (builder.rs lines 190-193): on a
merge failure the accumulator's options are kept and the error collected. -/
def apiMergeResult (s o : ApiOptions) : ApiOptions × List String :=
  match ApiOptions.merge s o with
  | Except.ok a => (a, [])
  | Except.error e => (s, [e])

/-- One duplicate-key check block of `append` (builder.rs lines 215-234):
for each key of `wM` already present in `selfM`, push one error built from
the message head and the key. -/
def dupKeyErrors {β : Type} (selfM wM : IndexMap ComponentId β) (head : String) :
    List String :=
  wM.keys.foldl
    (fun es k => if selfM.contains k then es ++ [head ++ k.display] else es) []

/-- The duplicate-test-name check of `append` (builder.rs lines 235-239). -/
def dupTestErrors (selfT wT : List (TestDefinition V)) : List String :=
  wT.foldl
    (fun es t =>
      if selfT.any (fun t0 => t0.name = t.name) then
        es ++ ["duplicate test name found: " ++ t.name]
      else es)
    []

/-- All duplicate-identity errors of `append`, in source order: enrichment
tables, sources, sinks, transforms, tests. -/
def ConfigBuilder.dupErrors (self w : ConfigBuilder V) : List String :=
  dupKeyErrors self.enrichment_tables w.enrichment_tables
      "duplicate enrichment_table name found: "
    ++ dupKeyErrors self.sources w.sources "duplicate source id found: "
    ++ dupKeyErrors self.sinks w.sinks "duplicate sink id found: "
    ++ dupKeyErrors self.transforms w.transforms "duplicate transform id found: "
    ++ dupTestErrors self.tests w.tests

/-- The errors contributed by the unconditionally-folded early fields of
`append` (api options, data directory, log schema), in source order. -/
def ConfigBuilder.earlyErrors (self w : ConfigBuilder V) : List String :=
  (apiMergeResult self.api w.api).2
    ++ (mergeDataDir self.global.data_dir w.global.data_dir).2
    ++ (LogSchema.merge self.global.log_schema w.global.log_schema).2

/-- `self` after the unconditional early-field mutations of `append`
(builder.rs lines 190-213): merged api options, provider replaced by
`with`'s, reconciled data directory, merged log schema, merged
healthchecks; the collections and tests are untouched at this point. -/
def ConfigBuilder.preMerged (self w : ConfigBuilder V) : ConfigBuilder V :=
  { self with
      api := (apiMergeResult self.api w.api).1
      provider := w.provider
      global := ⟨(mergeDataDir self.global.data_dir w.global.data_dir).1,
                 (LogSchema.merge self.global.log_schema w.global.log_schema).1⟩
      healthchecks := HealthcheckOptions.merge self.healthchecks w.healthchecks }

/-- The success-path extension of the five identity-keyed collections
(builder.rs lines 244-248). -/
def ConfigBuilder.extendAll (b w : ConfigBuilder V) : ConfigBuilder V :=
  { b with
      enrichment_tables := b.enrichment_tables.extend w.enrichment_tables
      sources := b.sources.extend w.sources
      sinks := b.sinks.extend w.sinks
      transforms := b.transforms.extend w.transforms
      tests := b.tests ++ w.tests }

/-- `ConfigBuilder::append` (builder.rs lines 187-251), with the in-place
mutation of `self` made explicit: the result pairs the final state of
`self` with the error list (`Ok(())` corresponds to an empty list, since
the source returns `Err(errors)` exactly when `errors` is non-empty).
The early fields are folded unconditionally and in source order; the five
identity-keyed collections extend only when the whole error list is
empty. -/
def ConfigBuilder.append (self w : ConfigBuilder V) : ConfigBuilder V × List String :=
  if self.earlyErrors w ++ self.dupErrors w = [] then
    ((self.preMerged w).extendAll w, [])
  else
    (self.preMerged w, self.earlyErrors w ++ self.dupErrors w)

/-- The set of local names already occupied by a global-scope transform or
source (builder.rs lines 75-81); membership is all that is used of the
source's `HashSet`. -/
def ConfigBuilder.globalNames (self : ConfigBuilder V) : List String :=
  ((self.transforms.keys ++ self.sources.keys).filter ComponentId.is_global).map
    ComponentId.id

/-- One declared-output wiring step of `merge_pipelines`
(builder.rs lines 91-99): a transform with that name gets the scoped id
appended to its inputs, else a sink with that name does, else one
unresolved-reference error is pushed. -/
def wireOutput (cid : ComponentId) (st : ConfigBuilder V × List String)
    (input : ComponentId) : ConfigBuilder V × List String :=
  if st.1.transforms.contains input then
    ({ st.1 with
        transforms := st.1.transforms.modify input
          (fun tr => { tr with inputs := tr.inputs ++ [cid] }) }, st.2)
  else if st.1.sinks.contains input then
    ({ st.1 with
        sinks := st.1.sinks.modify input
          (fun s => { s with inputs := s.inputs ++ [cid] }) }, st.2)
  else
    (st.1, st.2 ++ ["Couldn't find transform or sink '" ++ input.display ++ "'"])

/-- One loop iteration of `merge_pipelines` over a flattened pipeline
transform (builder.rs lines 83-102): a local name already used globally is
rejected with exactly one error and nothing else happens; otherwise every
declared output is wired in order and the transform is inserted under its
scoped id. -/
def mergeStep (g : List String) (st : ConfigBuilder V × List String)
    (t : ComponentId × PipelineTransform V) : ConfigBuilder V × List String :=
  if t.1.id ∈ g then
    (st.1, st.2 ++ ["Component ID '" ++ t.1.id ++ "' is already used."])
  else
    let st' := t.2.outputs.foldl (wireOutput t.1) st
    ({ st'.1 with transforms := st'.1.transforms.insert t.1 t.2.inner }, st'.2)

/-- `ConfigBuilder::merge_pipelines` (builder.rs lines 73-120). -/
def ConfigBuilder.merge_pipelines (self : ConfigBuilder V) :
    ConfigBuilder V × List String :=
  let st := self.pipelines.into_scoped.foldl (mergeStep self.globalNames) (self, [])
  ({ st.1 with provider := none, pipelines := ⟨[]⟩ }, st.2)

/-
  Helper lemmas (shared between the claim-level theorems).
-/

theorem foldl_push_eq_filter_map {α : Type} (p : α → Bool) (f : α → String)
    (l : List α) :
    ∀ es : List String,
      l.foldl (fun es k => if p k then es ++ [f k] else es) es
        = es ++ (l.filter p).map f := by
  induction l with
  | nil => intro es; simp
  | cons a t ih =>
    intro es
    by_cases h : p a = true
    · rw [List.foldl_cons, List.filter_cons_of_pos h, if_pos h, ih, List.map_cons]
      simp
    · rw [List.foldl_cons, List.filter_cons_of_neg h, if_neg h, ih]

theorem dupKeyErrors_eq {β : Type} (selfM wM : IndexMap ComponentId β)
    (head : String) :
    dupKeyErrors selfM wM head
      = (wM.keys.filter (fun k => selfM.contains k)).map
          (fun k => head ++ k.display) := by
  unfold dupKeyErrors
  rw [foldl_push_eq_filter_map]
  simp

theorem dupTestErrors_eq (selfT wT : List (TestDefinition V)) :
    dupTestErrors selfT wT
      = (wT.filter (fun t => selfT.any (fun t0 => t0.name = t.name))).map
          (fun t => "duplicate test name found: " ++ t.name) := by
  unfold dupTestErrors
  rw [foldl_push_eq_filter_map]
  simp

theorem dupKeyErrors_ne_nil {β : Type} (selfM wM : IndexMap ComponentId β)
    (head : String) (k : ComponentId) (hk : k ∈ wM.keys)
    (hc : selfM.contains k = true) :
    dupKeyErrors selfM wM head ≠ [] := by
  rw [dupKeyErrors_eq]
  intro h
  have hmem : k ∈ wM.keys.filter (fun k => selfM.contains k) :=
    List.mem_filter.mpr ⟨hk, hc⟩
  have : (head ++ k.display)
      ∈ (wM.keys.filter (fun k => selfM.contains k)).map
          (fun k => head ++ k.display) :=
    List.mem_map_of_mem _ hmem
  rw [h] at this
  exact absurd this (List.not_mem_nil _)

theorem dupTestErrors_ne_nil (selfT wT : List (TestDefinition V))
    (t : TestDefinition V) (ht : t ∈ wT)
    (hc : selfT.any (fun t0 => t0.name = t.name) = true) :
    dupTestErrors selfT wT ≠ [] := by
  rw [dupTestErrors_eq]
  intro h
  have hmem : t ∈ wT.filter (fun t => selfT.any (fun t0 => t0.name = t.name)) :=
    List.mem_filter.mpr ⟨ht, hc⟩
  have : ("duplicate test name found: " ++ t.name)
      ∈ (wT.filter (fun t => selfT.any (fun t0 => t0.name = t.name))).map
          (fun t => "duplicate test name found: " ++ t.name) :=
    List.mem_map_of_mem _ hmem
  rw [h] at this
  exact absurd this (List.not_mem_nil _)

theorem dupErrors_ne_nil_of_dup (self w : ConfigBuilder V)
    (h : (∃ k ∈ w.enrichment_tables.keys, self.enrichment_tables.contains k = true)
       ∨ (∃ k ∈ w.sources.keys, self.sources.contains k = true)
       ∨ (∃ k ∈ w.sinks.keys, self.sinks.contains k = true)
       ∨ (∃ k ∈ w.transforms.keys, self.transforms.contains k = true)
       ∨ (∃ t ∈ w.tests, self.tests.any (fun t0 => t0.name = t.name) = true)) :
    self.dupErrors w ≠ [] := by
  intro hc
  unfold ConfigBuilder.dupErrors at hc
  simp only [List.append_eq_nil] at hc
  obtain ⟨⟨⟨⟨het, hsrc⟩, hsink⟩, htr⟩, hts⟩ := hc
  rcases h with ⟨k, hk, hck⟩ | ⟨k, hk, hck⟩ | ⟨k, hk, hck⟩ | ⟨k, hk, hck⟩ | ⟨t, ht, hct⟩
  · exact dupKeyErrors_ne_nil _ _ _ k hk hck het
  · exact dupKeyErrors_ne_nil _ _ _ k hk hck hsrc
  · exact dupKeyErrors_ne_nil _ _ _ k hk hck hsink
  · exact dupKeyErrors_ne_nil _ _ _ k hk hck htr
  · exact dupTestErrors_ne_nil _ _ t ht hct hts

theorem append_of_errors_ne_nil (self w : ConfigBuilder V)
    (h : self.earlyErrors w ++ self.dupErrors w ≠ []) :
    self.append w = (self.preMerged w, self.earlyErrors w ++ self.dupErrors w) := by
  unfold ConfigBuilder.append
  rw [if_neg h]

theorem find?_update_of_any {α β : Type} [DecidableEq α] (k : α) (v : β) :
    ∀ l : List (α × β), l.any (fun p => decide (p.1 = k)) = true →
      ((l.map (fun p => if p.1 = k then (p.1, v) else p)).find?
          (fun p => decide (p.1 = k))).map (fun p => p.2) = some v := by
  intro l
  induction l with
  | nil => simp
  | cons a t ih =>
    intro h
    by_cases hk : a.1 = k
    · rw [List.map_cons, if_pos hk,
        List.find?_cons_of_pos _ (by simpa using hk)]
      simp
    · rw [List.map_cons, if_neg hk,
        List.find?_cons_of_neg _ (by simpa using hk)]
      apply ih
      rw [List.any_cons] at h
      simpa [hk] using h

theorem find?_push_of_all_neg {α β : Type} [DecidableEq α] (k : α) (v : β) :
    ∀ l : List (α × β), l.any (fun p => decide (p.1 = k)) = false →
      (((l ++ [(k, v)]).find? (fun p => decide (p.1 = k))).map
        (fun p => p.2)) = some v := by
  intro l
  induction l with
  | nil => simp
  | cons a t ih =>
    intro h
    rw [List.any_cons] at h
    have ha : ¬(a.1 = k) := by
      intro hk
      simp [hk] at h
    rw [List.cons_append, List.find?_cons_of_neg _ (by simpa using ha)]
    apply ih
    simpa [ha] using h

theorem IndexMap.get?_insert_self {α β : Type} [DecidableEq α]
    (m : IndexMap α β) (k : α) (v : β) :
    (m.insert k v).get? k = some v := by
  obtain ⟨l⟩ := m
  unfold IndexMap.insert
  by_cases h : IndexMap.contains ⟨l⟩ k = true
  · rw [if_pos h]
    exact find?_update_of_any k v l h
  · rw [if_neg h]
    exact find?_push_of_all_neg k v l (Bool.eq_false_iff.mpr h)

theorem IndexMap.get?_modify {α β : Type} [DecidableEq α]
    (m : IndexMap α β) (k : α) (f : β → β) :
    (m.modify k f).get? k = (m.get? k).map f := by
  obtain ⟨l⟩ := m
  unfold IndexMap.modify IndexMap.get?
  induction l with
  | nil => rfl
  | cons a t ih =>
    by_cases hk : a.1 = k
    · rw [List.map_cons, if_pos hk,
        List.find?_cons_of_pos _ (by simpa using hk),
        List.find?_cons_of_pos _ (by simpa using hk)]
      simp
    · rw [List.map_cons, if_neg hk,
        List.find?_cons_of_neg _ (by simpa using hk),
        List.find?_cons_of_neg _ (by simpa using hk)]
      exact ih

/-- The fields of a builder that the pipeline-expansion loop never touches. -/
def sameFrame (x y : ConfigBuilder V) : Prop :=
  x.global = y.global ∧ x.api = y.api ∧ x.healthchecks = y.healthchecks
    ∧ x.enrichment_tables = y.enrichment_tables ∧ x.sources = y.sources
    ∧ x.tests = y.tests

theorem sameFrame_refl (x : ConfigBuilder V) : sameFrame x x :=
  ⟨rfl, rfl, rfl, rfl, rfl, rfl⟩

theorem sameFrame_trans {x y z : ConfigBuilder V}
    (h1 : sameFrame x y) (h2 : sameFrame y z) : sameFrame x z :=
  ⟨h1.1.trans h2.1, h1.2.1.trans h2.2.1, h1.2.2.1.trans h2.2.2.1,
   h1.2.2.2.1.trans h2.2.2.2.1, h1.2.2.2.2.1.trans h2.2.2.2.2.1,
   h1.2.2.2.2.2.trans h2.2.2.2.2.2⟩

theorem wireOutput_frame (cid : ComponentId) (st : ConfigBuilder V × List String)
    (input : ComponentId) :
    sameFrame (wireOutput cid st input).1 st.1 := by
  unfold wireOutput
  split
  · exact ⟨rfl, rfl, rfl, rfl, rfl, rfl⟩
  split
  · exact ⟨rfl, rfl, rfl, rfl, rfl, rfl⟩
  · exact ⟨rfl, rfl, rfl, rfl, rfl, rfl⟩

theorem foldl_wireOutput_frame (cid : ComponentId) (outs : List ComponentId) :
    ∀ st : ConfigBuilder V × List String,
      sameFrame (outs.foldl (wireOutput cid) st).1 st.1 := by
  induction outs with
  | nil => intro st; exact sameFrame_refl _
  | cons a t ih =>
    intro st
    rw [List.foldl_cons]
    exact sameFrame_trans (ih (wireOutput cid st a)) (wireOutput_frame cid st a)

theorem mergeStep_frame (g : List String) (st : ConfigBuilder V × List String)
    (t : ComponentId × PipelineTransform V) :
    sameFrame (mergeStep g st t).1 st.1 := by
  unfold mergeStep
  split
  · exact sameFrame_refl _
  · exact sameFrame_trans ⟨rfl, rfl, rfl, rfl, rfl, rfl⟩
      (foldl_wireOutput_frame t.1 t.2.outputs st)

theorem foldl_mergeStep_frame (g : List String)
    (ts : List (ComponentId × PipelineTransform V)) :
    ∀ st : ConfigBuilder V × List String,
      sameFrame (ts.foldl (mergeStep g) st).1 st.1 := by
  induction ts with
  | nil => intro st; exact sameFrame_refl _
  | cons a t ih =>
    intro st
    rw [List.foldl_cons]
    exact sameFrame_trans (ih (mergeStep g st a)) (mergeStep_frame g st a)

theorem globalNames_mem_iff (b : ConfigBuilder V) (n : String) :
    n ∈ b.globalNames
      ↔ (ComponentId.mk n none ∈ b.transforms.keys
          ∨ ComponentId.mk n none ∈ b.sources.keys) := by
  unfold ConfigBuilder.globalNames
  constructor
  · intro h
    obtain ⟨cid, hmem, rfl⟩ := List.mem_map.mp h
    obtain ⟨hmem2, hglob⟩ := List.mem_filter.mp hmem
    have hpl : cid.pipeline = none := Option.isNone_iff_eq_none.mp hglob
    obtain ⟨i, pl⟩ := cid
    cases hpl
    simpa using List.mem_append.mp hmem2
  · intro h
    apply List.mem_map.mpr
    refine ⟨ComponentId.mk n none, ?_, rfl⟩
    exact List.mem_filter.mpr ⟨List.mem_append.mpr h, rfl⟩

theorem mergeStep_shadowed (g : List String) (st : ConfigBuilder V × List String)
    (t : ComponentId × PipelineTransform V) (h : t.1.id ∈ g) :
    mergeStep g st t
      = (st.1, st.2 ++ ["Component ID '" ++ t.1.id ++ "' is already used."]) := by
  unfold mergeStep
  rw [if_pos h]

theorem mergeStep_not_shadowed (g : List String)
    (st : ConfigBuilder V × List String)
    (t : ComponentId × PipelineTransform V) (h : t.1.id ∉ g) :
    mergeStep g st t
      = (let st' := t.2.outputs.foldl (wireOutput t.1) st
         ({ st'.1 with transforms := st'.1.transforms.insert t.1 t.2.inner },
          st'.2)) := by
  unfold mergeStep
  rw [if_neg h]

theorem wireOutput_transform_case (cid input : ComponentId)
    (st : ConfigBuilder V × List String)
    (hc : st.1.transforms.contains input = true) :
    wireOutput cid st input
      = ({ st.1 with transforms := (st.1.transforms.modify input
            (fun tr => { tr with inputs := tr.inputs ++ [cid] })) }, st.2) := by
  unfold wireOutput
  rw [if_pos hc]

theorem wireOutput_transform_get? (cid input : ComponentId)
    (st : ConfigBuilder V × List String)
    (hc : st.1.transforms.contains input = true) :
    (wireOutput cid st input).1.transforms.get? input
      = (st.1.transforms.get? input).map
          (fun tr => { tr with inputs := tr.inputs ++ [cid] }) := by
  rw [wireOutput_transform_case cid input st hc]
  exact IndexMap.get?_modify _ _ _

theorem wireOutput_sink_case (cid input : ComponentId)
    (st : ConfigBuilder V × List String)
    (hn : st.1.transforms.contains input = false)
    (hs : st.1.sinks.contains input = true) :
    wireOutput cid st input
      = ({ st.1 with sinks := (st.1.sinks.modify input
            (fun s => { s with inputs := s.inputs ++ [cid] })) }, st.2) := by
  unfold wireOutput
  rw [if_neg (by simp [hn]), if_pos hs]

theorem wireOutput_sink_get? (cid input : ComponentId)
    (st : ConfigBuilder V × List String)
    (hn : st.1.transforms.contains input = false)
    (hs : st.1.sinks.contains input = true) :
    (wireOutput cid st input).1.sinks.get? input
      = (st.1.sinks.get? input).map
          (fun s => { s with inputs := s.inputs ++ [cid] }) := by
  rw [wireOutput_sink_case cid input st hn hs]
  exact IndexMap.get?_modify _ _ _

theorem wireOutput_miss (cid input : ComponentId)
    (st : ConfigBuilder V × List String)
    (hn : st.1.transforms.contains input = false)
    (hs : st.1.sinks.contains input = false) :
    wireOutput cid st input
      = (st.1, st.2 ++ ["Couldn't find transform or sink '"
          ++ input.display ++ "'"]) := by
  unfold wireOutput
  rw [if_neg (by simp [hn]), if_neg (by simp [hs])]

theorem mergeStep_inserts (g : List String)
    (st : ConfigBuilder V × List String)
    (t : ComponentId × PipelineTransform V) (h : t.1.id ∉ g) :
    (mergeStep g st t).1.transforms.get? t.1 = some t.2.inner := by
  rw [mergeStep_not_shadowed g st t h]
  exact IndexMap.get?_insert_self _ _ _

theorem mergeDataDir_adopt (s w : Option String)
    (h : s = none ∨ s = default_data_dir) :
    mergeDataDir s w = (w, []) := by
  unfold mergeDataDir
  rw [if_pos h]

theorem mergeDataDir_conflict (s w : Option String)
    (h1 : ¬(s = none ∨ s = default_data_dir))
    (h2 : w ≠ default_data_dir) (h3 : s ≠ w) :
    mergeDataDir s w = (s, ["conflicting values for 'data_dir' found"]) := by
  unfold mergeDataDir
  rw [if_neg h1, if_pos ⟨h2, h3⟩]

theorem mergeDataDir_keep (s w : Option String)
    (h1 : ¬(s = none ∨ s = default_data_dir))
    (h2 : ¬(w ≠ default_data_dir ∧ s ≠ w)) :
    mergeDataDir s w = (s, []) := by
  unfold mergeDataDir
  rw [if_neg h1, if_neg h2]

theorem append_fst_global (self w : ConfigBuilder V) :
    (self.append w).1.global
      = ⟨(mergeDataDir self.global.data_dir w.global.data_dir).1,
         (LogSchema.merge self.global.log_schema w.global.log_schema).1⟩ := by
  unfold ConfigBuilder.append
  split
  · rfl
  · rfl

theorem append_conflict_mem (self w : ConfigBuilder V)
    (h1 : ¬(self.global.data_dir = none
        ∨ self.global.data_dir = default_data_dir))
    (h2 : w.global.data_dir ≠ default_data_dir)
    (h3 : self.global.data_dir ≠ w.global.data_dir) :
    "conflicting values for 'data_dir' found" ∈ (self.append w).2 := by
  have hdd := mergeDataDir_conflict self.global.data_dir w.global.data_dir h1 h2 h3
  have hmem : "conflicting values for 'data_dir' found"
      ∈ self.earlyErrors w ++ self.dupErrors w := by
    unfold ConfigBuilder.earlyErrors
    rw [hdd]
    simp
  have hne : self.earlyErrors w ++ self.dupErrors w ≠ [] := by
    intro h0
    rw [h0] at hmem
    exact absurd hmem (List.not_mem_nil _)
  rw [append_of_errors_ne_nil self w hne]
  exact hmem

theorem apiMergeResult_default (a : ApiOptions) :
    apiMergeResult a ⟨false, none⟩ = (a, []) := by
  obtain ⟨e, ad⟩ := a
  cases ad <;> simp [apiMergeResult, ApiOptions.merge]

theorem mergeSchemaField_default (s d fn : String) :
    mergeSchemaField s d d fn = (s, []) := by
  unfold mergeSchemaField
  by_cases h : s = d
  · rw [if_pos h, h]
  · rw [if_neg h, if_neg (by simp)]

theorem LogSchema_merge_default (s : LogSchema) :
    LogSchema.merge s LogSchema.default = (s, []) := by
  obtain ⟨mk, hk⟩ := s
  simp [LogSchema.merge, LogSchema.default, mergeSchemaField_default]

theorem HealthcheckOptions_merge_default (h : HealthcheckOptions) :
    HealthcheckOptions.merge h ⟨none, none⟩ = h := rfl

/-
  Concrete builders used by witnesses and counterexamples.
-/

/-- A builder whose only content is one global source named `logs`. -/
def srcDupBuilder : ConfigBuilder Unit :=
  { defaultBuilder with
      sources := ⟨[(ComponentId.global "logs", ⟨()⟩)]⟩ }

/-- A builder whose only content is one enrichment table named `a`. -/
def etDupBuilder : ConfigBuilder Unit :=
  { defaultBuilder with
      enrichment_tables := ⟨[(ComponentId.global "a", ⟨()⟩)]⟩ }

/-- A builder whose only content is one global sink named `print`. -/
def sinkBuilder : ConfigBuilder Unit :=
  { defaultBuilder with
      sinks := ⟨[(ComponentId.global "print", ⟨[], ()⟩)]⟩ }

/-- An otherwise-empty builder carrying a provider. -/
def providerBuilder : ConfigBuilder Unit :=
  { defaultBuilder with provider := some () }

/-- An otherwise-empty builder with a custom data directory `/a`. -/
def ddABuilder : ConfigBuilder Unit :=
  { defaultBuilder with global := ⟨some "/a", LogSchema.default⟩ }

/-- An otherwise-empty builder with a custom data directory `/b`. -/
def ddBBuilder : ConfigBuilder Unit :=
  { defaultBuilder with global := ⟨some "/b", LogSchema.default⟩ }

/-- A pipeline declaring one local transform `remap` with input `logs` and
declared output `print`. -/
def pipeRemapPrint : Pipeline Unit :=
  ⟨[("remap", ⟨⟨[ComponentId.global "logs"], ()⟩, [ComponentId.global "print"]⟩)]⟩

/-- Two pipelines `foo` and `bar`, both declaring local transform `remap`,
on a builder with no sources, sinks or transforms at all (so the declared
output `print` resolves to nothing). -/
def twoPipesDanglingBuilder : ConfigBuilder Unit :=
  { defaultBuilder with
      pipelines := ⟨[("foo", pipeRemapPrint), ("bar", pipeRemapPrint)]⟩ }

/-- Scenario C of the spec: source `logs`, sink `print`, pipelines `foo`
and `bar` each declaring local transform `remap` with output `print`. -/
def scenarioCBuilder : ConfigBuilder Unit :=
  { defaultBuilder with
      sources := ⟨[(ComponentId.global "logs", ⟨()⟩)]⟩
      sinks := ⟨[(ComponentId.global "print", ⟨[], ()⟩)]⟩
      pipelines := ⟨[("foo", pipeRemapPrint), ("bar", pipeRemapPrint)]⟩ }

/-
  Claim-level theorems.
-/

/-- C6: for every pair of builders, after `append` (whether it succeeds or
fails) `self`'s provider slot equals `with`'s provider slot: `with`'s
provider unconditionally replaces `self`'s, including when `with` has no
provider, in which case a provider previously set on `self` is
discarded. -/
theorem append_provider_replaced (self w : ConfigBuilder V) :
    (self.append w).1.provider = w.provider := by
  unfold ConfigBuilder.append
  split
  · rfl
  · rfl

/-- C9: converting a compiled configuration back into a builder copies every
entity collection (enrichment tables, sources, sinks, transforms), the
tests, and the global options verbatim, sets the provider to empty, and
sets the pending pipelines to empty. -/
theorem from_config_copies_and_resets (c : Config V) :
    (ConfigBuilder.from_config c).enrichment_tables = c.enrichment_tables
    ∧ (ConfigBuilder.from_config c).sources = c.sources
    ∧ (ConfigBuilder.from_config c).sinks = c.sinks
    ∧ (ConfigBuilder.from_config c).transforms = c.transforms
    ∧ (ConfigBuilder.from_config c).tests = c.tests
    ∧ (ConfigBuilder.from_config c).global = c.global
    ∧ (ConfigBuilder.from_config c).api = c.api
    ∧ (ConfigBuilder.from_config c).healthchecks = c.healthchecks
    ∧ (ConfigBuilder.from_config c).provider = none
    ∧ (ConfigBuilder.from_config c).pipelines = ⟨[]⟩ :=
  ⟨rfl, rfl, rfl, rfl, rfl, rfl, rfl, rfl, rfl, rfl⟩

/-- C10: the builder returned by `merge_pipelines` has its provider set to
none, discarding any provider present on the input builder, while global
options, healthchecks, API options, enrichment tables, sources, and tests
are carried over unchanged. -/
theorem merge_pipelines_provider_and_frame (b : ConfigBuilder V) :
    b.merge_pipelines.1.provider = none
    ∧ b.merge_pipelines.1.global = b.global
    ∧ b.merge_pipelines.1.api = b.api
    ∧ b.merge_pipelines.1.healthchecks = b.healthchecks
    ∧ b.merge_pipelines.1.enrichment_tables = b.enrichment_tables
    ∧ b.merge_pipelines.1.sources = b.sources
    ∧ b.merge_pipelines.1.tests = b.tests := by
  have h := foldl_mergeStep_frame b.globalNames b.pipelines.into_scoped (b, [])
  exact ⟨rfl, h.1, h.2.1, h.2.2.1, h.2.2.2.1, h.2.2.2.2.1, h.2.2.2.2.2⟩

/-- C3: `merge_pipelines` rejects each flattened pipeline transform whose
local name is already occupied by an existing global-scope transform or
source, appending exactly the error "Component ID '<name>' is already
used.", inserting nothing and wiring nothing for that triple while the
fold continues with the remaining triples; the occupied-name set contains
exactly the global transform and source names, so names occupied only by
sinks do not trigger the rejection. -/
theorem merge_pipelines_global_shadow_rejection {V : Type} :
    (∀ (g : List String) (st : ConfigBuilder V × List String)
        (t : ComponentId × PipelineTransform V), t.1.id ∈ g →
        mergeStep g st t
          = (st.1, st.2 ++ ["Component ID '" ++ t.1.id ++ "' is already used."]))
    ∧ (∀ (b : ConfigBuilder V) (n : String),
        n ∈ b.globalNames
          ↔ (ComponentId.mk n none ∈ b.transforms.keys
              ∨ ComponentId.mk n none ∈ b.sources.keys))
    ∧ (∀ b : ConfigBuilder V,
        b.merge_pipelines
          = (let st := b.pipelines.into_scoped.foldl
               (mergeStep b.globalNames) (b, [])
             ({ st.1 with provider := none, pipelines := ⟨[]⟩ }, st.2))) :=
  ⟨mergeStep_shadowed, globalNames_mem_iff, fun _ => rfl⟩

/-- Witness for C3: a pipeline transform named `bar` hits an occupied-name
set containing `bar` and is rejected with exactly the expected error,
leaving the builder untouched. -/
theorem merge_pipelines_global_shadow_rejection_witness :
    mergeStep ["bar"] ((defaultBuilder : ConfigBuilder Unit), [])
        (ComponentId.mk "bar" (some "foo"),
          PipelineTransform.mk (TransformOuter.mk [] ()) [])
      = (defaultBuilder, ["Component ID 'bar' is already used."]) :=
  merge_pipelines_global_shadow_rejection.1 ["bar"] (defaultBuilder, [])
    (ComponentId.mk "bar" (some "foo"),
      PipelineTransform.mk (TransformOuter.mk [] ()) [])
    (by decide)

/-- C4: for a non-colliding flattened pipeline transform, each declared
output is processed in declaration order: an existing transform with that
name gets the scoped id appended to its inputs, else an existing sink
does, else the error "Couldn't find transform or sink '<name>'" is
appended and processing continues; and the triple's transform config is
inserted under its scoped ComponentId regardless of whether every output
resolved. -/
theorem merge_pipelines_output_wiring {V : Type} :
    (∀ (g : List String) (st : ConfigBuilder V × List String)
        (t : ComponentId × PipelineTransform V), t.1.id ∉ g →
        mergeStep g st t
          = (let st' := t.2.outputs.foldl (wireOutput t.1) st
             ({ st'.1 with transforms := st'.1.transforms.insert t.1 t.2.inner },
              st'.2)))
    ∧ (∀ (cid input : ComponentId) (st : ConfigBuilder V × List String),
        (st.1.transforms.contains input = true →
          wireOutput cid st input
            = ({ st.1 with transforms := (st.1.transforms.modify input
                  (fun tr => { tr with inputs := tr.inputs ++ [cid] })) }, st.2)
          ∧ (wireOutput cid st input).1.transforms.get? input
              = (st.1.transforms.get? input).map
                  (fun tr => { tr with inputs := tr.inputs ++ [cid] }))
        ∧ (st.1.transforms.contains input = false →
            st.1.sinks.contains input = true →
          wireOutput cid st input
            = ({ st.1 with sinks := (st.1.sinks.modify input
                  (fun s => { s with inputs := s.inputs ++ [cid] })) }, st.2)
          ∧ (wireOutput cid st input).1.sinks.get? input
              = (st.1.sinks.get? input).map
                  (fun s => { s with inputs := s.inputs ++ [cid] }))
        ∧ (st.1.transforms.contains input = false →
            st.1.sinks.contains input = false →
          wireOutput cid st input
            = (st.1, st.2 ++ ["Couldn't find transform or sink '"
                ++ input.display ++ "'"])))
    ∧ (∀ (g : List String) (st : ConfigBuilder V × List String)
        (t : ComponentId × PipelineTransform V), t.1.id ∉ g →
        (mergeStep g st t).1.transforms.get? t.1 = some t.2.inner) :=
  ⟨mergeStep_not_shadowed,
   fun cid input st =>
     ⟨fun hc => ⟨wireOutput_transform_case cid input st hc,
                 wireOutput_transform_get? cid input st hc⟩,
      fun hn hs => ⟨wireOutput_sink_case cid input st hn hs,
                    wireOutput_sink_get? cid input st hn hs⟩,
      fun hn hs => wireOutput_miss cid input st hn hs⟩,
   mergeStep_inserts⟩

/-- Witness for C4: wiring a declared output into an existing sink appends
the scoped id to that sink's inputs, and a non-colliding triple's
transform ends up stored under its scoped id. -/
theorem merge_pipelines_output_wiring_witness :
    ((wireOutput (ComponentId.mk "remap" (some "foo"))
        ((sinkBuilder, []) : ConfigBuilder Unit × List String)
        (ComponentId.global "print")).1.sinks.get? (ComponentId.global "print")
      = some ⟨[ComponentId.mk "remap" (some "foo")], ()⟩)
    ∧ ((mergeStep [] ((sinkBuilder, []) : ConfigBuilder Unit × List String)
        (ComponentId.mk "remap" (some "foo"),
          PipelineTransform.mk (TransformOuter.mk [ComponentId.global "logs"] ())
            [ComponentId.global "print"])).1.transforms.get?
          (ComponentId.mk "remap" (some "foo"))
      = some (TransformOuter.mk [ComponentId.global "logs"] ())) := by
  constructor
  · rw [(merge_pipelines_output_wiring.2.1 (ComponentId.mk "remap" (some "foo"))
      (ComponentId.global "print") (sinkBuilder, [])).2.1 (by decide) (by decide)
      |>.2]
    decide
  · exact merge_pipelines_output_wiring.2.2 []
      ((sinkBuilder, []) : ConfigBuilder Unit × List String)
      (ComponentId.mk "remap" (some "foo"),
        PipelineTransform.mk (TransformOuter.mk [ComponentId.global "logs"] ())
          [ComponentId.global "print"])
      (by decide)

/-- C1: if `append` finds any duplicate key in any of the enrichment
tables, sources, sinks, transforms or tests, it returns a non-empty error
list and none of `self`'s four entity collections nor its test list is
extended - they all remain exactly as before the call. -/
theorem append_atomic_on_duplicate (self w : ConfigBuilder V)
    (h : (∃ k ∈ w.enrichment_tables.keys, self.enrichment_tables.contains k = true)
       ∨ (∃ k ∈ w.sources.keys, self.sources.contains k = true)
       ∨ (∃ k ∈ w.sinks.keys, self.sinks.contains k = true)
       ∨ (∃ k ∈ w.transforms.keys, self.transforms.contains k = true)
       ∨ (∃ t ∈ w.tests, self.tests.any (fun t0 => t0.name = t.name) = true)) :
    (self.append w).2 ≠ []
    ∧ (self.append w).1.enrichment_tables = self.enrichment_tables
    ∧ (self.append w).1.sources = self.sources
    ∧ (self.append w).1.sinks = self.sinks
    ∧ (self.append w).1.transforms = self.transforms
    ∧ (self.append w).1.tests = self.tests := by
  have hdup := dupErrors_ne_nil_of_dup self w h
  have hne : self.earlyErrors w ++ self.dupErrors w ≠ [] :=
    List.append_ne_nil_of_right_ne_nil _ hdup
  rw [append_of_errors_ne_nil self w hne]
  exact ⟨hne, rfl, rfl, rfl, rfl, rfl⟩

/-- Witness for C1: appending a builder with a duplicate source id `logs`
onto itself fails and leaves every collection untouched. -/
theorem append_atomic_on_duplicate_witness :
    (srcDupBuilder.append srcDupBuilder).2 ≠ []
    ∧ (srcDupBuilder.append srcDupBuilder).1.enrichment_tables
        = srcDupBuilder.enrichment_tables
    ∧ (srcDupBuilder.append srcDupBuilder).1.sources = srcDupBuilder.sources
    ∧ (srcDupBuilder.append srcDupBuilder).1.sinks = srcDupBuilder.sinks
    ∧ (srcDupBuilder.append srcDupBuilder).1.transforms
        = srcDupBuilder.transforms
    ∧ (srcDupBuilder.append srcDupBuilder).1.tests = srcDupBuilder.tests :=
  append_atomic_on_duplicate srcDupBuilder srcDupBuilder
    (Or.inr (Or.inl (by decide)))

/-- Counterexample to C2 as stated: a duplicate enrichment-table key `a`
produces the error "duplicate enrichment_table name found: a", not an
error of the claimed form "duplicate enrichment_table id found: a". -/
theorem append_duplicate_message_cex :
    (etDupBuilder.append etDupBuilder).2
        = ["duplicate enrichment_table name found: a"]
    ∧ (etDupBuilder.append etDupBuilder).2
        ≠ ["duplicate enrichment_table id found: a"] := by
  decide

/-- C2 (amended): for each key of `with`'s collections already present in
the corresponding collection of `self`, `append` produces exactly one
error, in collection order; sources, sinks and transforms yield
"duplicate <kind> id found: <key>" while enrichment tables yield
"duplicate enrichment_table name found: <key>" (and duplicate tests yield
"duplicate test name found: <name>"). -/
theorem append_duplicate_error_messages {V : Type} :
    (∀ self w : ConfigBuilder V,
      self.dupErrors w
        = (w.enrichment_tables.keys.filter
              (fun k => self.enrichment_tables.contains k)).map
            (fun k => "duplicate enrichment_table name found: " ++ k.display)
          ++ (w.sources.keys.filter (fun k => self.sources.contains k)).map
            (fun k => "duplicate source id found: " ++ k.display)
          ++ (w.sinks.keys.filter (fun k => self.sinks.contains k)).map
            (fun k => "duplicate sink id found: " ++ k.display)
          ++ (w.transforms.keys.filter (fun k => self.transforms.contains k)).map
            (fun k => "duplicate transform id found: " ++ k.display)
          ++ (w.tests.filter
              (fun t => self.tests.any (fun t0 => t0.name = t.name))).map
            (fun t => "duplicate test name found: " ++ t.name))
    ∧ (∀ self w : ConfigBuilder V, (self.append w).2 ≠ [] →
        (self.append w).2 = self.earlyErrors w ++ self.dupErrors w) := by
  constructor
  · intro self w
    unfold ConfigBuilder.dupErrors
    rw [dupKeyErrors_eq, dupKeyErrors_eq, dupKeyErrors_eq, dupKeyErrors_eq,
      dupTestErrors_eq]
  · intro self w h
    by_cases hc : self.earlyErrors w ++ self.dupErrors w = []
    · have : self.append w = ((self.preMerged w).extendAll w, []) := by
        unfold ConfigBuilder.append
        rw [if_pos hc]
      rw [this] at h
      exact absurd rfl h
    · rw [append_of_errors_ne_nil self w hc]

/-- Witness for C2: the failing append of a duplicated source id reports
exactly the early errors followed by the duplicate-key errors. -/
theorem append_duplicate_error_messages_witness :
    (srcDupBuilder.append srcDupBuilder).2
      = srcDupBuilder.earlyErrors srcDupBuilder
        ++ srcDupBuilder.dupErrors srcDupBuilder :=
  append_duplicate_error_messages.2 srcDupBuilder srcDupBuilder (by decide)

/-- Counterexample to C5 as stated: appending a default-constructed builder
succeeds but replaces a previously-set provider with none, so the builder
is not left unchanged in every field. -/
theorem append_default_changes_provider_cex :
    (providerBuilder.append defaultBuilder).2 = []
    ∧ (providerBuilder.append defaultBuilder).1.provider = none
    ∧ providerBuilder.provider = some () := by
  decide

/-- C5 (amended): for every builder whose data directory is unset,
appending an empty (default-constructed) builder succeeds and leaves every
field unchanged except the provider, which becomes unset. -/
theorem append_default_identity_except_provider (b : ConfigBuilder V)
    (h : b.global.data_dir = none) :
    b.append defaultBuilder = ({ b with provider := none }, []) := by
  have hapi : apiMergeResult b.api (defaultBuilder : ConfigBuilder V).api
      = (b.api, []) := apiMergeResult_default b.api
  have hdd : mergeDataDir b.global.data_dir
      (defaultBuilder : ConfigBuilder V).global.data_dir
      = (b.global.data_dir, []) := by
    rw [h]
    rfl
  have hls : LogSchema.merge b.global.log_schema
      (defaultBuilder : ConfigBuilder V).global.log_schema
      = (b.global.log_schema, []) := LogSchema_merge_default b.global.log_schema
  have hhc : HealthcheckOptions.merge b.healthchecks
      (defaultBuilder : ConfigBuilder V).healthchecks
      = b.healthchecks := HealthcheckOptions_merge_default b.healthchecks
  have hearly : b.earlyErrors defaultBuilder = [] := by
    unfold ConfigBuilder.earlyErrors
    rw [hapi, hdd, hls]
    rfl
  have hdup : b.dupErrors defaultBuilder = [] := rfl
  have herrors : b.earlyErrors defaultBuilder ++ b.dupErrors defaultBuilder
      = [] := by
    rw [hearly, hdup]
    rfl
  unfold ConfigBuilder.append
  rw [if_pos herrors]
  unfold ConfigBuilder.extendAll ConfigBuilder.preMerged
  rw [hapi, hdd, hls, hhc]
  simp [IndexMap.extend, defaultBuilder]

/-- Witness for C5 (amended): a builder with one source and unset data
directory is unchanged, except for the provider reset, by appending an
empty builder. -/
theorem append_default_identity_except_provider_witness :
    srcDupBuilder.append defaultBuilder
      = ({ srcDupBuilder with provider := none }, []) :=
  append_default_identity_except_provider srcDupBuilder rfl

/-- C7: `append` merges the data directory as: if `self`'s is unset or
equal to the built-in default, it adopts `with`'s; else if `with`'s is
non-default and differs from `self`'s, it records the conflict error
"conflicting values for 'data_dir' found"; else `self`'s value is kept. -/
theorem append_data_dir_policy {V : Type} :
    (∀ self w : ConfigBuilder V,
      (self.append w).1.global.data_dir
        = (mergeDataDir self.global.data_dir w.global.data_dir).1)
    ∧ (∀ s w : Option String, (s = none ∨ s = default_data_dir) →
        mergeDataDir s w = (w, []))
    ∧ (∀ s w : Option String, ¬(s = none ∨ s = default_data_dir) →
        w ≠ default_data_dir → s ≠ w →
        mergeDataDir s w = (s, ["conflicting values for 'data_dir' found"]))
    ∧ (∀ s w : Option String, ¬(s = none ∨ s = default_data_dir) →
        ¬(w ≠ default_data_dir ∧ s ≠ w) →
        mergeDataDir s w = (s, []))
    ∧ (∀ self w : ConfigBuilder V,
        ¬(self.global.data_dir = none
            ∨ self.global.data_dir = default_data_dir) →
        w.global.data_dir ≠ default_data_dir →
        self.global.data_dir ≠ w.global.data_dir →
        "conflicting values for 'data_dir' found" ∈ (self.append w).2) :=
  ⟨fun self w => by rw [append_fst_global self w],
   mergeDataDir_adopt, mergeDataDir_conflict, mergeDataDir_keep,
   append_conflict_mem⟩

/-- Witness for C7: two builders with distinct non-default data
directories conflict, and the error is reported by the failing append. -/
theorem append_data_dir_policy_witness :
    mergeDataDir (some "/a") (some "/b")
      = (some "/a", ["conflicting values for 'data_dir' found"])
    ∧ "conflicting values for 'data_dir' found"
        ∈ (ddABuilder.append ddBBuilder).2 :=
  ⟨(append_data_dir_policy (V := Unit)).2.2.1 (some "/a") (some "/b")
      (by decide) (by decide) (by decide),
   (append_data_dir_policy (V := Unit)).2.2.2.2 ddABuilder ddBBuilder
      (by decide) (by decide) (by decide)⟩

/-- Counterexample to C8 as stated: the hypotheses hold (two distinct
pipelines each declare local transform `remap`, and no global transform or
source occupies `remap` - the occupied-name set is empty), yet
`merge_pipelines` does not succeed with zero errors, because the declared
output `print` resolves to no transform or sink; both scoped transforms
are still inserted. -/
theorem merge_pipelines_two_pipelines_cex :
    twoPipesDanglingBuilder.globalNames = []
    ∧ twoPipesDanglingBuilder.merge_pipelines.2
        = ["Couldn't find transform or sink 'print'",
           "Couldn't find transform or sink 'print'"]
    ∧ twoPipesDanglingBuilder.merge_pipelines.1.transforms.len = 2 := by
  decide

/-- C8 (amended, Scenario C of the spec): with source `logs`, sink `print`
and pipelines `foo` and `bar` each declaring local transform `remap`
(output `print`), and no global transform named `remap`, expansion
succeeds with zero errors and the transforms collection has exactly two
entries, one scoped per owning pipeline. -/
theorem merge_pipelines_scenario_c :
    scenarioCBuilder.merge_pipelines.2 = []
    ∧ scenarioCBuilder.merge_pipelines.1.transforms.keys
        = [ComponentId.mk "remap" (some "foo"),
           ComponentId.mk "remap" (some "bar")]
    ∧ scenarioCBuilder.merge_pipelines.1.transforms.len = 2 := by
  decide

end VectorConfig
